import Mathlib

/-!
Verification of the staged impostor-case generation pipeline of
`src/routes/generate-impostor-case.ts` (the multi-step version of the route,
the first document in that file).

The JavaScript code is shallowly embedded:

* JSON values (`JSON.parse` results) are the inductive `Json`; JSON number
  literals are modelled as integers (the data handled by this route - ages,
  indices, counts - is integral; fractional and exponent literals are out of
  the model and make the model parser fail).
* Strings under repair are `List Char`, mirroring the index-based JS scans.
* Each call to an external collaborator (Supabase suspect/weapon services,
  the OpenAI chat completion per stage) is an oracle value/function supplied
  to the handler, and every consultation is logged with a `CallTag`.
* `Math.random()` draws are oracle-supplied results (`killerDraw`,
  `discoveredByIsKiller`, `discoveredDraw`).
* A JS `throw` caught by the route's try/catch is `Except.error`; the
  handler maps it to the HTTP 500 envelope exactly as lines 857-865 do.
-/

/-- A parsed JSON value (the result of `JSON.parse`).  Object fields keep
insertion order and are duplicate-free: the parser builds them with
`setField`, which models the JS semantics that a duplicated key overwrites
in place (last value wins, first position kept). -/
inductive Json where
  | null : Json
  | bool (b : Bool) : Json
  | num (n : Int) : Json
  | str (s : String) : Json
  | arr (elems : List Json) : Json
  | obj (fields : List (String × Json)) : Json

mutual

/-- Structural equality on `Json`; models `===` on JSON primitives (object
identifiers handled by the reconciler are strings in practice, for which
`===` is value equality). -/
def Json.beq : Json → Json → Bool
  | .null, .null => true
  | .bool a, .bool b => a == b
  | .num a, .num b => a == b
  | .str a, .str b => a == b
  | .arr a, .arr b => Json.beqList a b
  | .obj a, .obj b => Json.beqFields a b
  | _, _ => false
termination_by structural j => j

def Json.beqList : List Json → List Json → Bool
  | [], [] => true
  | a :: as, b :: bs => Json.beq a b && Json.beqList as bs
  | _, _ => false
termination_by structural l => l

def Json.beqFields : List (String × Json) → List (String × Json) → Bool
  | [], [] => true
  | (ka, va) :: as, (kb, vb) :: bs => ka == kb && Json.beq va vb && Json.beqFields as bs
  | _, _ => false
termination_by structural l => l

end

mutual

theorem Json.beq_iff : ∀ (a b : Json), Json.beq a b = true ↔ a = b
  | .null, b => by cases b <;> simp [Json.beq]
  | .bool x, b => by cases b <;> simp [Json.beq]
  | .num x, b => by cases b <;> simp [Json.beq]
  | .str x, b => by cases b <;> simp [Json.beq]
  | .arr xs, b => by
      cases b <;> simp [Json.beq]
      rw [Json.beqList_iff]
  | .obj xs, b => by
      cases b <;> simp [Json.beq]
      rw [Json.beqFields_iff]

theorem Json.beqList_iff : ∀ (a b : List Json), Json.beqList a b = true ↔ a = b
  | [], b => by cases b <;> simp [Json.beqList]
  | x :: xs, b => by
      cases b <;> simp [Json.beqList]
      rw [Json.beq_iff, Json.beqList_iff]

theorem Json.beqFields_iff : ∀ (a b : List (String × Json)),
    Json.beqFields a b = true ↔ a = b
  | [], b => by cases b <;> simp [Json.beqFields]
  | (k, v) :: xs, b => by
      cases b <;> simp [Json.beqFields]
      rw [Json.beq_iff, Json.beqFields_iff]
      simp [Prod.ext_iff]

end

instance : DecidableEq Json := fun a b => decidable_of_iff _ (Json.beq_iff a b)

instance : BEq Json := ⟨Json.beq⟩

/-- JS property read `j.k` on a parsed JSON value: `none` is `undefined`
(also for reads on primitives). -/
def getField (j : Json) (k : String) : Option Json :=
  match j with
  | .obj fs => fs.lookup k
  | _ => none

/-- JS property write on an object field list: overwrite in place when the
key exists (keeping its position), append otherwise. -/
def setField : List (String × Json) → String → Json → List (String × Json)
  | [], k, v => [(k, v)]
  | (k0, v0) :: rest, k, v =>
      if k0 = k then (k, v) :: rest else (k0, v0) :: setField rest k v

/-- JS property write `j.k = v`.  The pipeline only ever writes onto parsed
objects; a write onto a primitive (which would throw in strict mode) is
modelled as a no-op and is unreachable in the modelled runs. -/
def setFieldJ (j : Json) (k : String) (v : Json) : Json :=
  match j with
  | .obj fs => .obj (setField fs k v)
  | other => other

/-- Collapse an optional property read: JS `undefined` is modelled by
`Json.null`, which is falsy exactly like `undefined` wherever the route
tests it (`||`, `if`), and is never stringified before such a test. -/
def optJson (o : Option Json) : Json := o.getD .null

/-- JS truthiness of a parsed JSON value. -/
def jsTruthy : Json → Bool
  | .null => false
  | .bool b => b
  | .num n => n != 0
  | .str s => s != ""
  | .arr _ => true
  | .obj _ => true

/-- JS `a || b` on values. -/
def jsOr (a b : Json) : Json := if jsTruthy a then a else b

mutual

/-- JS `String(v)` / `v.toString()` on parsed JSON values.  Numbers print
as integers (they are modelled as integers), arrays join their elements
with commas (`null` printing empty), plain objects print
`[object Object]`. -/
def jsToStr : Json → String
  | .null => "null"
  | .bool true => "true"
  | .bool false => "false"
  | .num n => toString n
  | .str s => s
  | .arr xs => jsToStrList xs
  | .obj _ => "[object Object]"
termination_by structural j => j

def jsToStrList : List Json → String
  | [] => ""
  | [Json.null] => ""
  | [x] => jsToStr x
  | Json.null :: rest => "," ++ jsToStrList rest
  | x :: rest => jsToStr x ++ "," ++ jsToStrList rest
termination_by structural l => l

end

/-- JSON / JS whitespace characters recognised by `trim` and the parser
(the common four; JS trims a few exotic Unicode spaces besides, which do
not occur in this pipeline). -/
def isWsChar (c : Char) : Bool := c = ' ' || c = '\t' || c = '\n' || c = '\r'

/-- JS `String.prototype.trim`. -/
def jsTrim (cs : List Char) : List Char :=
  ((cs.dropWhile isWsChar).reverse.dropWhile isWsChar).reverse

/-- JS `String.prototype.lastIndexOf` for a single character: the index of
its last occurrence, `-1` when absent. -/
def lastIndexOfI (cs : List Char) (c : Char) : Int :=
  match cs.reverse.findIdx? (· = c) with
  | some j => ((cs.length - 1 - j : Nat) : Int)
  | none => -1

/-- JS `hay.includes(needle)` on strings (as char lists). -/
def containsSub (hay needle : List Char) : Bool :=
  if needle.isPrefixOf hay then true
  else
    match hay with
    | [] => false
    | _ :: rest => containsSub rest needle

/-- JS `.toLowerCase().trim()`, applied in that order as at lines 766-768
of the route (ASCII lowering; the catalog occupations are plain text). -/
def toLowerTrim (s : String) : List Char :=
  jsTrim (s.data.map Char.toLower)

/-- Consume JSON whitespace. -/
def skipWs : List Char → List Char
  | c :: rest => if isWsChar c then skipWs rest else c :: rest
  | [] => []

/-- Hexadecimal digit value, for `\u` escapes. -/
def hexVal (c : Char) : Option Nat :=
  if c.isDigit then some (c.toNat - 48)
  else if 'a' ≤ c ∧ c ≤ 'f' then some (c.toNat - 87)
  else if 'A' ≤ c ∧ c ≤ 'F' then some (c.toNat - 55)
  else none

/-- Parse the body of a JSON string literal (after the opening quote),
handling the standard escapes.  A `\u` escape becomes the character of its
code point (a lone surrogate, invalid as a `Char`, becomes NUL - such
escapes do not occur in this pipeline). -/
def parseStringBody : List Char → List Char → Except String (String × List Char)
  | acc, '"' :: rest => .ok (⟨acc.reverse⟩, rest)
  | acc, '\\' :: 'u' :: h1 :: h2 :: h3 :: h4 :: rest =>
      match hexVal h1, hexVal h2, hexVal h3, hexVal h4 with
      | some a, some b, some c, some d =>
          parseStringBody (Char.ofNat (((a * 16 + b) * 16 + c) * 16 + d) :: acc) rest
      | _, _, _, _ => .error "Bad Unicode escape in JSON"
  | acc, '\\' :: e :: rest =>
      if e = '"' then parseStringBody ('"' :: acc) rest
      else if e = '\\' then parseStringBody ('\\' :: acc) rest
      else if e = '/' then parseStringBody ('/' :: acc) rest
      else if e = 'b' then parseStringBody (Char.ofNat 8 :: acc) rest
      else if e = 'f' then parseStringBody (Char.ofNat 12 :: acc) rest
      else if e = 'n' then parseStringBody ('\n' :: acc) rest
      else if e = 'r' then parseStringBody ('\r' :: acc) rest
      else if e = 't' then parseStringBody ('\t' :: acc) rest
      else .error "Bad escaped character in JSON"
  | _, '\\' :: _ => .error "Bad escaped character in JSON"
  | acc, c :: rest => parseStringBody (c :: acc) rest
  | _, [] => .error "Unterminated string in JSON"

/-- Digits prefix of a character list and the remainder. -/
def takeDigits : List Char → List Char × List Char
  | c :: rest =>
      if c.isDigit then
        let (ds, r) := takeDigits rest
        (c :: ds, r)
      else ([], c :: rest)
  | [] => ([], [])

def natOfDigits (ds : List Char) : Nat :=
  ds.foldl (fun acc c => acc * 10 + (c.toNat - 48)) 0

/-- Parse a JSON integer literal (optional minus, digits).  Fractional and
exponent forms are outside the model (see the header). -/
def parseIntLit : List Char → Except String (Int × List Char)
  | '-' :: rest =>
      match takeDigits rest with
      | ([], _) => .error "Expected digits in JSON number"
      | (ds, r) => .ok (-(natOfDigits ds : Int), r)
  | cs =>
      match takeDigits cs with
      | ([], _) => .error "Expected digits in JSON number"
      | (ds, r) => .ok ((natOfDigits ds : Int), r)

mutual

/-- Recursive-descent JSON value parser, fuel-indexed so that all
recursion is structural (the fuel supplied by `jsonParse` always
suffices). -/
def parseValue : Nat → List Char → Except String (Json × List Char)
  | 0, _ => .error "JSON nesting exceeds parser fuel"
  | Nat.succ fuel, cs =>
      match skipWs cs with
      | 'n' :: 'u' :: 'l' :: 'l' :: rest => .ok (.null, rest)
      | 't' :: 'r' :: 'u' :: 'e' :: rest => .ok (.bool true, rest)
      | 'f' :: 'a' :: 'l' :: 's' :: 'e' :: rest => .ok (.bool false, rest)
      | '"' :: rest =>
          match parseStringBody [] rest with
          | .ok (s, r) => .ok (.str s, r)
          | .error e => .error e
      | '[' :: rest =>
          match skipWs rest with
          | ']' :: r => .ok (.arr [], r)
          | r => parseElements fuel r []
      | '{' :: rest =>
          match skipWs rest with
          | '}' :: r => .ok (.obj [], r)
          | r => parseMembers fuel r []
      | c :: rest =>
          if c = '-' ∨ c.isDigit then
            match parseIntLit (c :: rest) with
            | .ok (n, r) => .ok (.num n, r)
            | .error e => .error e
          else .error "Unexpected token in JSON"
      | [] => .error "Unexpected end of JSON input"

def parseElements : Nat → List Char → List Json → Except String (Json × List Char)
  | 0, _, _ => .error "JSON nesting exceeds parser fuel"
  | Nat.succ fuel, cs, acc =>
      match parseValue fuel cs with
      | .error e => .error e
      | .ok (v, rest) =>
          match skipWs rest with
          | ',' :: r => parseElements fuel r (acc ++ [v])
          | ']' :: r => .ok (.arr (acc ++ [v]), r)
          | _ => .error "Expected comma or closing bracket in JSON array"

def parseMembers : Nat → List Char → List (String × Json) → Except String (Json × List Char)
  | 0, _, _ => .error "JSON nesting exceeds parser fuel"
  | Nat.succ fuel, cs, acc =>
      match skipWs cs with
      | '"' :: rest =>
          match parseStringBody [] rest with
          | .error e => .error e
          | .ok (k, r1) =>
              match skipWs r1 with
              | ':' :: r2 =>
                  match parseValue fuel r2 with
                  | .error e => .error e
                  | .ok (v, r3) =>
                      match skipWs r3 with
                      | ',' :: r4 => parseMembers fuel r4 (setField acc k v)
                      | '}' :: r4 => .ok (.obj (setField acc k v), r4)
                      | _ => .error "Expected comma or closing brace in JSON object"
              | _ => .error "Expected colon in JSON object"
      | _ => .error "Expected string key in JSON object"

end

/-- `JSON.parse` on a character list: one value, then only whitespace. -/
def jsonParse (cs : List Char) : Except String Json :=
  match parseValue (2 * cs.length + 8) cs with
  | .error e => .error e
  | .ok (v, rest) =>
      if (skipWs rest).isEmpty then .ok v
      else .error "Unexpected non-whitespace character after JSON data"

/-- `JSON.parse` on a string. -/
def parseJson (s : String) : Except String Json := jsonParse s.data

instance {ε α : Type} [DecidableEq ε] [DecidableEq α] : DecidableEq (Except ε α) :=
  fun a b =>
    match a, b with
    | .error e, .error f =>
        if h : e = f then .isTrue (by rw [h]) else .isFalse (by simp [h])
    | .ok x, .ok y =>
        if h : x = y then .isTrue (by rw [h]) else .isFalse (by simp [h])
    | .error _, .ok _ => .isFalse (by simp)
    | .ok _, .error _ => .isFalse (by simp)

/-- The quote scan of `fixUnterminatedStrings` (route lines 113-138): walk
the string tracking `escapeNext`, `inString`, the start of the most
recently opened string and the (write-only) stack of open-quote positions.
Returns the final `(inString, stringStart, stack)`. -/
def scanStrings : List Char → Bool → Bool → Int → Nat → List Nat → Bool × Int × List Nat
  | [], _, inString, ss, _, stack => (inString, ss, stack)
  | c :: rest, escNext, inString, ss, i, stack =>
      if escNext then scanStrings rest false inString ss (i + 1) stack
      else if c = '\\' then scanStrings rest true inString ss (i + 1) stack
      else if c = '"' then
        if inString then scanStrings rest false false ss (i + 1) stack.tail
        else scanStrings rest false true (i : Int) (i + 1) (i :: stack)
      else scanStrings rest false inString ss (i + 1) stack

/-- Candidate structural characters before which a closing quote may be
spliced (route line 151). -/
def isStructuralChar (c : Char) : Bool := c = ',' || c = '}' || c = ']'

/-- The backslash count of route lines 153-159: the run of consecutive
backslashes immediately before position `p`, counted down to position `ss`
(the open quote) - equivalently, the trailing backslashes of the segment
from `ss` to `p - 1`. -/
def trailingBackslashes (cs : List Char) : Nat :=
  (cs.reverse.takeWhile (· = '\\')).length

/-- Splice a double quote into the string at position `p`
(route line 162 / 171). -/
def insertQuoteAt (cs : List Char) (p : Nat) : List Char :=
  cs.take p ++ '"' :: cs.drop p

/-- The insert-position search of route lines 146-168: the first position
`p` starting at `stringStart + 1`, while `p` is inside the string and at
most `lastValid`, holding an unescaped structural character.  The fuel
(always supplied `≥ cs.length + 1`) only bounds the loop that the guard
terminates. -/
def findInsertPosGo (cs : List Char) (ss lastValid : Nat) : Nat → Nat → Option Nat
  | _, 0 => none
  | p, Nat.succ k =>
      if p < cs.length ∧ p ≤ lastValid then
        if isStructuralChar (cs.getD p ' ') ∧
            trailingBackslashes ((cs.take p).drop ss) % 2 = 0 then
          some p
        else findInsertPosGo cs ss lastValid (p + 1) k
      else none

/-- `fixUnterminatedStrings` (route lines 106-179): when the quote scan
ends inside a string, close that string - before the first unescaped
structural character after it if one exists up to the last `}`/`]`, at
that last position otherwise, or at the very end when the dangling string
starts after every `}`/`]`. -/
def fixUnterminatedStrings (cs : List Char) : List Char :=
  match scanStrings cs false false (-1) 0 [] with
  | (inString, stringStart, _stack) =>
    if inString ∧ stringStart ≥ 0 then
      let ss := stringStart.toNat
      let lastBrace := lastIndexOfI cs '}'
      let lastBracket := lastIndexOfI cs ']'
      let lastValidPos := (max (max lastBrace lastBracket) 0).toNat
      if stringStart < (lastValidPos : Int) then
        match findInsertPosGo cs ss lastValidPos (ss + 1) (cs.length + 1) with
        | some p => insertQuoteAt cs p
        | none => if lastValidPos > ss then insertQuoteAt cs lastValidPos else cs
      else cs ++ ['"']
    else cs

/-- The backward bracket scan of route lines 203-218 over the reversed
string: `pos` is the original index of the head character; a counter
falling below zero stops the scan recording `pos + 1`. -/
def bracketScan : List Char → Int → Int → Nat → Int × Int × Option Nat
  | [], ob, obk, _ => (ob, obk, none)
  | c :: rest, ob, obk, pos =>
      let ob2 := if c = '}' then ob + 1 else if c = '{' then ob - 1 else ob
      let obk2 := if c = ']' then obk + 1 else if c = '[' then obk - 1 else obk
      if ob2 < 0 ∨ obk2 < 0 then (ob2, obk2, some (pos + 1))
      else bracketScan rest ob2 obk2 (pos - 1)

/-- The bracket-balance branch of `parseAndRepairJSON` (route lines
202-225), taken when the input has no `}` at a positive index: truncate at
the scan's stopping point and append `}`/`]` for each counter still
positive. -/
def bracketBalanceRepair (cs : List Char) : List Char :=
  match bracketScan cs.reverse 0 0 (cs.length - 1) with
  | (ob, obk, brk) =>
    let lastValidPos := match brk with | some p => p | none => cs.length
    let closing :=
      (if ob > 0 then List.replicate ob.toNat '}' else []) ++
      (if obk > 0 then List.replicate obk.toNat ']' else [])
    cs.take lastValidPos ++ closing

/-- JS `s.endsWith("\x7d")`. -/
def endsWithRBrace (cs : List Char) : Bool := cs.getLast? = some '}'

/-- The closing repair of `parseAndRepairJSON` (route lines 187-231),
applied to the trimmed response: nothing to do when it already ends with
`}`; otherwise cut at the last `}` (fixing quotes if that leaves an odd
quote count), or bracket-balance when no `}` stands at a positive index;
throw when the result still does not end with `}`. -/
def repairClosing (t : List Char) : Except String (List Char) :=
  if endsWithRBrace t then .ok t
  else
    let lastBrace := lastIndexOfI t '}'
    let t1 :=
      if lastBrace > 0 then
        let beforeLastBrace := t.take (lastBrace.toNat + 1)
        if beforeLastBrace.count '"' % 2 = 0 then beforeLastBrace
        else fixUnterminatedStrings beforeLastBrace
      else bracketBalanceRepair t
    if endsWithRBrace t1 then .ok t1
    else .error "Model returned incomplete JSON (not closed, could not repair)"

/-- The quote-balance check of `parseAndRepairJSON` (route lines 233-244):
with an odd number of `"` characters, run `fixUnterminatedStrings` and
throw if the count is still odd. -/
def balanceQuotes (t : List Char) : Except String (List Char) :=
  if t.count '"' % 2 ≠ 0 then
    let fixed := fixUnterminatedStrings t
    if fixed.count '"' % 2 = 0 then .ok fixed
    else .error "Model returned malformed JSON (unbalanced quotes, could not fix)"
  else .ok t

/-- `parseAndRepairJSON` on the trimmed character list (route lines
184-262): closing repair, quote balance, then `JSON.parse` with exactly
one repair retry. -/
def parseAndRepairJSONL (t : List Char) : Except String Json :=
  match repairClosing t with
  | .error e => .error e
  | .ok t1 =>
      match balanceQuotes t1 with
      | .error e => .error e
      | .ok t2 =>
          match jsonParse t2 with
          | .ok v => .ok v
          | .error e =>
              match jsonParse (fixUnterminatedStrings t2) with
              | .ok v => .ok v
              | .error _ =>
                  .error ("Model returned invalid JSON that could not be repaired. Original: " ++ e)

/-- `parseAndRepairJSON` (route lines 184-262). -/
def parseAndRepairJSON (response : String) : Except String Json :=
  parseAndRepairJSONL (jsTrim response.data)

/-- The generated role string of `scoreMatch` line 766:
`(gen.role || "").toString().toLowerCase().trim()`. -/
def genRoleOf (gen : Json) : List Char :=
  toLowerTrim (jsToStr (jsOr (optJson (getField gen "role")) (.str "")))

/-- The Spanish catalog occupation of `scoreMatch` line 767:
`(orig.occupation?.es || orig.occupation || "").toString().toLowerCase().trim()`. -/
def origOccEsOf (orig : Json) : List Char :=
  toLowerTrim (jsToStr (jsOr
    (jsOr (optJson (getField (optJson (getField orig "occupation")) "es"))
      (optJson (getField orig "occupation")))
    (.str "")))

/-- The English catalog occupation of `scoreMatch` line 768:
`(orig.occupation?.en || "").toString().toLowerCase().trim()`. -/
def origOccEnOf (orig : Json) : List Char :=
  toLowerTrim (jsToStr (jsOr
    (optJson (getField (optJson (getField orig "occupation")) "en")) (.str "")))

/-- `scoreMatch` (route lines 764-782), the reconciler's deterministic
match score of a generated player against a catalog suspect record.  The
three sequential `score +=` groups are summed. -/
def scoreMatch (gen orig : Json) : Int :=
  let genRole := genRoleOf gen
  let origOccEs := origOccEsOf orig
  let origOccEn := origOccEnOf orig
  let occScore : Int :=
    if genRole ≠ [] ∧ (genRole = origOccEs ∨ genRole = origOccEn) then 5
    else if genRole ≠ [] ∧ (containsSub origOccEs genRole ∨ containsSub genRole origOccEs)
      then 3
    else 0
  let genderScore : Int :=
    if jsTruthy (optJson (getField gen "gender")) ∧
        jsTruthy (optJson (getField orig "gender")) ∧
        optJson (getField gen "gender") = optJson (getField orig "gender") then 2
    else 0
  let ageScore : Int :=
    match getField gen "age", getField orig "approx_age" with
    | some (.num a), some (.num b) =>
        if (a - b).natAbs ≤ 1 then 2 else if (a - b).natAbs ≤ 3 then 1 else 0
    | _, _ => 0
  occScore + genderScore + ageScore

/-- The claimed scoring rule, written from claim C7's words, to be compared
with the source's `scoreMatch`: +10 for a case-insensitive occupation
match in either display locale, +3 for a substring match in either
direction, +2 for an exact gender match, and an age-proximity bonus (+2
within 1 year, else +1 within 3) when both ages are known. -/
def scoreMatchClaimed (gen orig : Json) : Int :=
  let genRole := genRoleOf gen
  let origOccEs := origOccEsOf orig
  let origOccEn := origOccEnOf orig
  let occScore : Int :=
    if genRole ≠ [] ∧ (genRole = origOccEs ∨ genRole = origOccEn) then 10
    else if genRole ≠ [] ∧ (containsSub origOccEs genRole ∨ containsSub genRole origOccEs ∨
        containsSub origOccEn genRole ∨ containsSub genRole origOccEn) then 3
    else 0
  let genderScore : Int :=
    if jsTruthy (optJson (getField gen "gender")) ∧
        jsTruthy (optJson (getField orig "gender")) ∧
        optJson (getField gen "gender") = optJson (getField orig "gender") then 2
    else 0
  let ageScore : Int :=
    match getField gen "age", getField orig "approx_age" with
    | some (.num a), some (.num b) =>
        if (a - b).natAbs ≤ 1 then 2 else if (a - b).natAbs ≤ 3 then 1 else 0
    | _, _ => 0
  occScore + genderScore + ageScore

/-- The occupation tier of the amended scoring rule: +5 for an exact
case-insensitive match in either display locale, else +3 when the role and
the Spanish-locale occupation contain one another (either direction), for
a non-empty role. -/
def occupationTierAmended (gen orig : Json) : Int :=
  match genRoleOf gen with
  | [] => 0
  | genRole =>
      if genRole = origOccEsOf orig ∨ genRole = origOccEnOf orig then 5
      else if containsSub (origOccEsOf orig) genRole ∨ containsSub genRole (origOccEsOf orig)
        then 3
      else 0

/-- The gender bonus of the amended scoring rule: +2 when both gender
fields are present (truthy) and strictly equal. -/
def genderBonusAmended (gen orig : Json) : Int :=
  if jsTruthy (optJson (getField gen "gender")) ∧
      jsTruthy (optJson (getField orig "gender")) ∧
      optJson (getField gen "gender") = optJson (getField orig "gender") then 2
  else 0

/-- The age bonus of the amended scoring rule: when both ages are numbers,
+2 for a difference of at most 1 year, else +1 for at most 3. -/
def ageBonusAmended (gen orig : Json) : Int :=
  match getField gen "age", getField orig "approx_age" with
  | some (.num a), some (.num b) =>
      if (a - b).natAbs ≤ 1 then 2 else if (a - b).natAbs ≤ 3 then 1 else 0
  | _, _ => 0

/-- The amended scoring rule as a sum of its three bonuses. -/
def scoreMatchAmended (gen orig : Json) : Int :=
  occupationTierAmended gen orig + genderBonusAmended gen orig + ageBonusAmended gen orig

/-- The id value of a catalog record, as the reconciler's used-set keys it
(`orig.id`; `Json.null` for a record without one, which is never added to
the used set because it is falsy). -/
def reconcileId (orig : Json) : Json := optJson (getField orig "id")

/-- The best-candidate loop of route lines 785-795: walk the catalog in
order, skip used records, keep the strictly best score (first of equal
scores wins; `bestScore` starts at -1). -/
def pickBestGo (gen : Json) (used : List Json) :
    List Json → Option Json → Int → Option Json
  | [], best, _ => best
  | orig :: rest, best, bestScore =>
      if used.contains (reconcileId orig) then pickBestGo gen used rest best bestScore
      else
        let s := scoreMatch gen orig
        if s > bestScore then pickBestGo gen used rest (some orig) s
        else pickBestGo gen used rest best bestScore

/-- The per-player body of the reconciliation loop (route lines 784-807):
best-scoring unused record, falling back to the first unused one; mark its
(truthy) id used; copy a truthy `image_url` onto the player's `photo`. -/
def reconcileGo (suspects : List Json) : List Json → List Json → List Json → List Json
  | [], _, acc => acc
  | gen :: rest, used, acc =>
      let best :=
        match pickBestGo gen used suspects none (-1) with
        | some b => some b
        | none => suspects.find? (fun o => ! used.contains (reconcileId o))
      let used2 :=
        match best with
        | some b => if jsTruthy (reconcileId b) then used ++ [reconcileId b] else used
        | none => used
      let gen2 :=
        match best with
        | some b =>
            if jsTruthy (optJson (getField b "image_url")) then
              setFieldJ gen "photo" (optJson (getField b "image_url"))
            else gen
        | none => gen
      reconcileGo suspects rest used2 (acc ++ [gen2])

/-- The photo-matching step of route lines 757-808 (`reconcile`): a
deterministic one-pass greedy assignment of catalog imagery to the
generated players, in player order. -/
def reconcilePhotos (players suspects : List Json) : List Json :=
  reconcileGo suspects players [] []

/-- The name-overwrite loop of route lines 749-755: position `i` gets
`playerNames[i]` as its `name` when that entry exists and is truthy. -/
def applyNamesGo (names : List String) : Nat → List Json → List Json
  | _, [] => []
  | i, p :: rest =>
      let p2 :=
        match names.get? i with
        | some nm => if nm ≠ "" then setFieldJ p "name" (.str nm) else p
        | none => p
      p2 :: applyNamesGo names (i + 1) rest

/-- Route lines 749-755, including the guard `playerNames.length > 0`. -/
def applyNames (players : List Json) (names : List String) : List Json :=
  if names.length > 0 then applyNamesGo names 0 players else players

/-- `CustomScenario` (from `generate-initial-case.ts`). -/
structure CustomScenario where
  place : String
  themeOrSituation : Option String
deriving DecidableEq

/-- `buildCustomScenarioText` (from `generate-initial-case.ts`): the place,
then a period and the theme when that is present and truthy. -/
def buildCustomScenarioText (cs : CustomScenario) : String :=
  match cs.themeOrSituation with
  | some t => if t ≠ "" then cs.place ++ ". " ++ t else cs.place
  | none => cs.place

/-- `ImpostorCaseGenerationRequest` (route lines 30-41).  `suspects`/`clues`
are JS numbers; `0` models both zero and a missing field (both falsy at the
required-fields check).  `playerNames`/`playerGenders` are modelled in
their already-normalised string form (the normalisation of lines 639-653
maps string entries to themselves). -/
structure ImpostorCaseGenerationRequest where
  caseType : String
  suspects : Nat
  clues : Nat
  scenario : Option String
  customScenario : Option CustomScenario
  difficulty : String
  playerNames : List String
  playerGenders : List String
deriving DecidableEq

/-- One external consultation of the handler: the Supabase suspect fetch,
the weapon selection, or one of the three OpenAI generation stages. -/
inductive CallTag where
  | fetchSuspects : CallTag
  | selectWeapon : CallTag
  | genCore : CallTag
  | genBatch (batchStart : Nat) : CallTag
  | genHidden : CallTag
deriving DecidableEq

/-- The handler's external collaborators and random draws, supplied as
oracles: the catalog results, the raw text each generation stage returns,
and the results of the three `Math.random()` draws of lines 696-703. -/
structure PipelineOracles where
  suspects : List Json
  weapon : Json
  coreResponse : String
  batchResponse : Nat → String
  hiddenResponse : String
  killerDraw : Nat
  discoveredByIsKiller : Bool
  discoveredDraw : Nat

/-- Route lines 700-703: who discovered the body - the killer on a 30%
coin, otherwise one fresh uniform draw, taken as it is. -/
def pickDiscoveredBy (randomKillerIndex : Nat) (discoveredByIsKiller : Bool)
    (draw : Nat) : Nat :=
  if discoveredByIsKiller then randomKillerIndex else draw

/-- Truthiness of the request's `scenario` field (JS `body.scenario`):
present and non-empty. -/
def scenarioTruthy (req : ImpostorCaseGenerationRequest) : Bool :=
  match req.scenario with
  | some s => s ≠ ""
  | none => false

/-- PASO 1, `generateImpostorCaseCore` (route lines 267-369): the stage
returns its parsed response (prompt construction feeds the oracle and is
not modelled). -/
def generateImpostorCaseCore (response : String) : Except String Json :=
  parseAndRepairJSON response

/-- PASO 2, `generatePlayersBatch` (route lines 374-537): parse the batch
response, require a `players` array, require exactly `batchSize` entries. -/
def generatePlayersBatch (response : String) (batchSize : Nat) : Except String (List Json) :=
  match parseAndRepairJSON response with
  | .error e => .error e
  | .ok parsed =>
      match getField parsed "players" with
      | some (.arr ps) =>
          if ps.length = batchSize then .ok ps
          else .error ("AI generated " ++ toString ps.length ++ " players but " ++
            toString batchSize ++ " were requested for this batch")
      | _ => .error "Invalid response structure: missing players array"

/-- PASO 3, `generateImpostorHiddenContext` (route lines 542-613): parse
the response and return its `hiddenContext` property (possibly absent). -/
def generateImpostorHiddenContext (response : String) : Except String (Option Json) :=
  match parseAndRepairJSON response with
  | .error e => .error e
  | .ok parsed => .ok (getField parsed "hiddenContext")

/-- The batch loop of route lines 724-739, as a recursion over the number
of remaining iterations (the loop `for (batchStart = 0; batchStart <
suspects; batchStart += 3)` runs `numBatches suspects` times); collects
the concatenated players or the first stage error, and the batch call
log. -/
def runBatches (oracle : Nat → String) (total : Nat) :
    Nat → Nat → List Json → Except String (List Json) × List CallTag
  | 0, _, acc => (.ok acc, [])
  | Nat.succ rem, batchStart, acc =>
      match generatePlayersBatch (oracle batchStart) (min 3 (total - batchStart)) with
      | .error e => (.error e, [CallTag.genBatch batchStart])
      | .ok ps =>
          let r := runBatches oracle total rem (batchStart + 3) (acc ++ ps)
          (r.1, CallTag.genBatch batchStart :: r.2)

/-- The number of iterations of the batch loop with `BATCH_SIZE = 3`. -/
def numBatches (total : Nat) : Nat := (total + 2) / 3

/-- The `config` object of the response (route lines 840-848). -/
structure CaseConfig where
  caseType : String
  totalClues : Nat
  scenario : String
  customScenario : Option CustomScenario
  difficulty : String
deriving DecidableEq

/-- `ImpostorCaseResponse` (route lines 43-101) as the handler builds it at
lines 830-849; the core-stage fields are JS property reads (absent =
`none`). -/
structure ImpostorCaseResponse where
  caseTitle : Option Json
  caseDescription : Option Json
  victim : Option Json
  players : List Json
  weapon : Option Json
  hiddenContext : Json
  config : CaseConfig
deriving DecidableEq

/-- The HTTP outcome of one request: a 400 validation rejection, the 500
envelope `(error, details)` of the catch block (lines 857-865), or a 200
with the finished document. -/
inductive HttpResult where
  | status400 (error : String) : HttpResult
  | status500 (error details : String) : HttpResult
  | ok200 (doc : ImpostorCaseResponse) : HttpResult
deriving DecidableEq

/-- The constant `error` field of the 500 envelope. -/
def failEnvelope (details : String) : HttpResult :=
  .status500 "Failed to generate impostor case" details

/-- The `weapon` field of the response: `caseCore.weapon`, with its `photo`
overwritten by the catalog `image_url` when both the selected weapon and
the core weapon are truthy (route lines 824-827; copying an absent
`image_url` would set `photo` to `undefined`, which the JSON response
drops - modelled as no overwrite). -/
def finalWeapon (selectedWeapon : Json) (caseCore : Json) : Option Json :=
  match getField caseCore "weapon" with
  | some cw =>
      if jsTruthy selectedWeapon ∧ jsTruthy cw then
        match getField selectedWeapon "image_url" with
        | some u => some (setFieldJ cw "photo" u)
        | none => some cw
      else some cw
  | none => none

/-- The route handler (lines 615-866): validation, catalog fetches, the
three generation stages, name application, reconciliation, the forced
`killerId`, and the response - or the 400/500 error envelope.  Returns the
HTTP outcome and the ordered log of external consultations. -/
def handleGenerateImpostorCase (req : ImpostorCaseGenerationRequest)
    (orc : PipelineOracles) : HttpResult × List CallTag :=
  if req.caseType = "" ∨ req.suspects = 0 ∨ req.clues = 0 ∨ req.difficulty = "" then
    (.status400 "Missing required fields: caseType, suspects, clues, difficulty", [])
  else if scenarioTruthy req ∧ req.customScenario.isSome then
    (.status400 "Cannot provide both scenario and customScenario. Provide only one.", [])
  else if ¬ scenarioTruthy req ∧ ¬ req.customScenario.isSome then
    (.status400 "Must provide either scenario or customScenario", [])
  else
    let selectedSuspects := orc.suspects
    let log1 := [CallTag.fetchSuspects] ++
      (if req.caseType = "asesinato" then [CallTag.selectWeapon] else [])
    let selectedWeapon : Json :=
      if req.caseType = "asesinato" then orc.weapon else .null
    let randomKillerIndex := orc.killerDraw
    let _discoveredByPlayerIndex :=
      pickDiscoveredBy randomKillerIndex orc.discoveredByIsKiller orc.discoveredDraw
    match generateImpostorCaseCore orc.coreResponse with
    | .error e => (failEnvelope e, log1 ++ [CallTag.genCore])
    | .ok caseCore =>
        let log2 := log1 ++ [CallTag.genCore]
        match runBatches orc.batchResponse req.suspects (numBatches req.suspects) 0 [] with
        | (.error e, blog) => (failEnvelope e, log2 ++ blog)
        | (.ok players0, blog) =>
            let log3 := log2 ++ blog
            if players0.length ≠ req.suspects then
              (failEnvelope ("AI generated " ++ toString players0.length ++
                " players instead of " ++ toString req.suspects), log3)
            else
              let players1 := applyNames players0 req.playerNames
              let players2 := reconcilePhotos players1 selectedSuspects
              match generateImpostorHiddenContext orc.hiddenResponse with
              | .error e => (failEnvelope e, log3 ++ [CallTag.genHidden])
              | .ok hidden =>
                  let log4 := log3 ++ [CallTag.genHidden]
                  match hidden with
                  | some (.obj hfs) =>
                      let killerIdStr := "player-" ++ toString randomKillerIndex
                      (.ok200 {
                        caseTitle := getField caseCore "caseTitle"
                        caseDescription := getField caseCore "caseDescription"
                        victim := getField caseCore "victim"
                        players := players2
                        weapon := finalWeapon selectedWeapon caseCore
                        hiddenContext := .obj (setField hfs "killerId" (.str killerIdStr))
                        config := {
                          caseType := req.caseType
                          totalClues := req.clues
                          scenario :=
                            match req.customScenario with
                            | some cs => buildCustomScenarioText cs
                            | none =>
                                match req.scenario with
                                | some s => if s ≠ "" then s else "aleatorio"
                                | none => "aleatorio"
                          customScenario := req.customScenario
                          difficulty := req.difficulty } }, log4)
                  | _ =>
                      -- line 820 `hiddenContext.killerId = ...` throws in
                      -- strict mode when `parsed.hiddenContext` is absent
                      -- or a primitive; the catch block turns it into 500.
                      (failEnvelope "TypeError: cannot set killerId", log4)

/-- Number of players flagged as the killer in a player list. -/
def countKillers (players : List Json) : Nat :=
  players.countP (fun p => decide (getField p "isKiller" = some (Json.bool true)))

/-- The id values of a player list, in order. -/
def playerIds (players : List Json) : List (Option Json) :=
  players.map (fun p => getField p "id")

/-- Whether an HTTP outcome is the 200 with a document. -/
def isOk200 : HttpResult → Bool
  | .ok200 _ => true
  | _ => false

/-- Whether an HTTP outcome is the 400 validation rejection. -/
def is400 : HttpResult → Bool
  | .status400 _ => true
  | _ => false

/-- The players of the finished document of a 200 outcome (empty
otherwise). -/
def docPlayersOf : HttpResult → List Json
  | .ok200 doc => doc.players
  | _ => []

/-- A concrete request (claim C1): one suspect, fixed scenario. -/
def C1req : ImpostorCaseGenerationRequest :=
  { caseType := "robo", suspects := 1, clues := 1, scenario := some "mansion",
    customScenario := none, difficulty := "easy", playerNames := [], playerGenders := [] }

/-- Concrete oracles (claim C1): the batch stage returns its one requested
player with `isKiller` false everywhere, which the orchestrator accepts. -/
def C1orc : PipelineOracles :=
  { suspects := [], weapon := .null, coreResponse := "\x7b\x7d",
    batchResponse := fun _ => "\x7b\"players\":[\x7b\"id\":\"player-1\",\"isKiller\":false\x7d]\x7d",
    hiddenResponse := "\x7b\"hiddenContext\":\x7b\x7d\x7d",
    killerDraw := 1, discoveredByIsKiller := false, discoveredDraw := 1 }

/-- The finished document of the C1 run: no player is flagged as the
killer, yet the pipeline finishes and forces `killerId`. -/
def C1doc : ImpostorCaseResponse :=
  ImpostorCaseResponse.mk none none none
    [.obj [("id", .str "player-1"), ("isKiller", .bool false)]] none
    (.obj [("killerId", .str "player-1")])
    (CaseConfig.mk "robo" 1 "mansion" none "easy")

/-- A concrete request (claim C2): one suspect. -/
def C2req : ImpostorCaseGenerationRequest :=
  { caseType := "robo", suspects := 1, clues := 1, scenario := some "mansion",
    customScenario := none, difficulty := "easy", playerNames := [], playerGenders := [] }

/-- Concrete oracles (claim C2): the batch stage returns the right count
but the identifier `player-7` instead of the requested `player-1`. -/
def C2orc : PipelineOracles :=
  { suspects := [], weapon := .null, coreResponse := "\x7b\x7d",
    batchResponse := fun _ => "\x7b\"players\":[\x7b\"id\":\"player-7\",\"isKiller\":true\x7d]\x7d",
    hiddenResponse := "\x7b\"hiddenContext\":\x7b\x7d\x7d",
    killerDraw := 1, discoveredByIsKiller := false, discoveredDraw := 1 }

/-- The finished document of the C2 run: the stray identifier survives. -/
def C2doc : ImpostorCaseResponse :=
  ImpostorCaseResponse.mk none none none
    [.obj [("id", .str "player-7"), ("isKiller", .bool true)]] none
    (.obj [("killerId", .str "player-1")])
    (CaseConfig.mk "robo" 1 "mansion" none "easy")

/-- A concrete request (claim C8): three suspects, one batch of three. -/
def C8req : ImpostorCaseGenerationRequest :=
  { caseType := "robo", suspects := 3, clues := 1, scenario := some "mansion",
    customScenario := none, difficulty := "easy", playerNames := [], playerGenders := [] }

/-- Concrete oracles (claim C8): the batch stage asked for three players
returns only two. -/
def C8orc : PipelineOracles :=
  { suspects := [], weapon := .null, coreResponse := "\x7b\x7d",
    batchResponse := fun _ => "\x7b\"players\":[\x7b\"id\":\"player-1\"\x7d,\x7b\"id\":\"player-2\"\x7d]\x7d",
    hiddenResponse := "\x7b\"hiddenContext\":\x7b\x7d\x7d",
    killerDraw := 1, discoveredByIsKiller := false, discoveredDraw := 1 }

/-- A concrete request (claim C10) carrying both `scenario` and
`customScenario`. -/
def C10req : ImpostorCaseGenerationRequest :=
  { caseType := "robo", suspects := 1, clues := 1, scenario := some "mansion",
    customScenario := some (CustomScenario.mk "jet privado" none), difficulty := "easy",
    playerNames := [], playerGenders := [] }

/-- Concrete oracles (claim C10); never consulted on the 400 path. -/
def C10orc : PipelineOracles :=
  { suspects := [], weapon := .null, coreResponse := "",
    batchResponse := fun _ => "", hiddenResponse := "",
    killerDraw := 1, discoveredByIsKiller := false, discoveredDraw := 1 }

theorem lookup_setField (fs : List (String × Json)) (k : String) (v : Json) :
    List.lookup k (setField fs k v) = some v := by
  induction fs with
  | nil => simp [setField, List.lookup]
  | cons hd tl ih =>
      obtain ⟨k0, v0⟩ := hd
      by_cases hk : k0 = k
      · simp [setField, hk, List.lookup]
      · simp only [setField, if_neg hk, List.lookup]
        have : (k == k0) = false := by
          simp [beq_eq_false_iff_ne]
          exact fun h => hk h.symm
        simp [this, ih]

theorem applyNamesGo_length (names : List String) :
    ∀ (i : Nat) (ps : List Json), (applyNamesGo names i ps).length = ps.length := by
  intro i ps
  induction ps generalizing i with
  | nil => simp [applyNamesGo]
  | cons p rest ih => simp [applyNamesGo, ih]

theorem applyNames_length (ps : List Json) (names : List String) :
    (applyNames ps names).length = ps.length := by
  unfold applyNames
  split
  · exact applyNamesGo_length names 0 ps
  · rfl

theorem reconcileGo_length (suspects : List Json) :
    ∀ (ps used acc : List Json),
      (reconcileGo suspects ps used acc).length = acc.length + ps.length := by
  intro ps
  induction ps with
  | nil => intro used acc; simp [reconcileGo]
  | cons gen rest ih =>
      intro used acc
      simp only [reconcileGo]
      rw [ih]
      simp
      omega

theorem reconcilePhotos_length (ps suspects : List Json) :
    (reconcilePhotos ps suspects).length = ps.length := by
  unfold reconcilePhotos
  rw [reconcileGo_length]
  simp

theorem runBatches_log_genBatch (oracle : Nat → String) (total : Nat) :
    ∀ (rem start : Nat) (acc : List Json) (t : CallTag),
      t ∈ (runBatches oracle total rem start acc).2 → ∃ b, t = CallTag.genBatch b := by
  intro rem
  induction rem with
  | zero => intro start acc t ht; simp [runBatches] at ht
  | succ rem ih =>
      intro start acc t ht
      simp only [runBatches] at ht
      cases hb : generatePlayersBatch (oracle start) (min 3 (total - start)) with
      | error e => rw [hb] at ht; simp at ht; exact ⟨start, ht⟩
      | ok ps =>
          rw [hb] at ht
          simp at ht
          rcases ht with h | h
          · exact ⟨start, h⟩
          · exact ih (start + 3) (acc ++ ps) t h

theorem runBatches_error_of_batch (oracle : Nat → String) (total j : Nat) (e : String)
    (hbatch : generatePlayersBatch (oracle (3 * j)) (min 3 (total - 3 * j)) = .error e) :
    ∀ (rem i : Nat) (acc : List Json), i ≤ j → j < i + rem →
      ∃ e2, (runBatches oracle total rem (3 * i) acc).1 = .error e2 := by
  intro rem
  induction rem with
  | zero => intro i acc hij hlt; omega
  | succ rem ih =>
      intro i acc hij hlt
      by_cases hi : i = j
      · subst hi
        simp only [runBatches]
        rw [hbatch]
        exact ⟨e, rfl⟩
      · have hij2 : i < j := lt_of_le_of_ne hij hi
        simp only [runBatches]
        cases hb : generatePlayersBatch (oracle (3 * i)) (min 3 (total - 3 * i)) with
        | error e0 => exact ⟨e0, rfl⟩
        | ok ps =>
            have h3 : 3 * i + 3 = 3 * (i + 1) := by ring
            rw [h3]
            exact ih (i + 1) (acc ++ ps) (by omega) (by omega)

/-- C1 (amended): in every finished case document the pipeline produces,
`hiddenContext.killerId` equals `player-<k>` for the pre-selected culprit
index `k` - the orchestrator forces it after the hidden-context stage.
(The per-player `isKiller` flags are taken from the generation output
without validation, so the single-culprit count holds only when that
output complies; see the counterexample.) -/
theorem C1_killer_id_forced (req : ImpostorCaseGenerationRequest) (orc : PipelineOracles)
    (doc : ImpostorCaseResponse)
    (h : (handleGenerateImpostorCase req orc).1 = .ok200 doc) :
    getField doc.hiddenContext "killerId" =
      some (.str ("player-" ++ toString orc.killerDraw)) := by
  unfold handleGenerateImpostorCase at h
  repeat' split at h
  all_goals try simp only [failEnvelope, Prod.fst] at h
  all_goals
    first
      | (injection h with h2; subst h2; simp [getField, lookup_setField])
      | injection h

/-- C2 (amended): the orchestrator enforces only counts - every finished
document carries exactly the requested number of players (each batch is
length-checked and the total is re-checked).  The identifiers themselves
are taken from the generation output, pre-computed only inside the prompt
text, and are not validated; see the counterexample. -/
theorem C2_player_count_enforced (req : ImpostorCaseGenerationRequest)
    (orc : PipelineOracles) (doc : ImpostorCaseResponse)
    (h : (handleGenerateImpostorCase req orc).1 = .ok200 doc) :
    doc.players.length = req.suspects := by
  unfold handleGenerateImpostorCase at h
  repeat' split at h
  all_goals try simp only [failEnvelope, Prod.fst] at h
  all_goals
    first
      | (injection h with h2; subst h2;
         simp only [reconcilePhotos_length, applyNames_length]
         omega)
      | injection h

theorem handler_batches_error (req : ImpostorCaseGenerationRequest)
    (orc : PipelineOracles) (e2 : String)
    (herr : (runBatches orc.batchResponse req.suspects (numBatches req.suspects) 0 []).1 =
      .error e2) :
    isOk200 (handleGenerateImpostorCase req orc).1 = false ∧
      CallTag.genHidden ∉ (handleGenerateImpostorCase req orc).2 := by
  unfold handleGenerateImpostorCase
  split
  · exact ⟨rfl, by simp⟩
  split
  · exact ⟨rfl, by simp⟩
  split
  · exact ⟨rfl, by simp⟩
  cases hcore : generateImpostorCaseCore orc.coreResponse with
  | error e => constructor <;> by_cases hc : req.caseType = "asesinato" <;> simp [isOk200, failEnvelope, hc]
  | ok core =>
      cases hrb : runBatches orc.batchResponse req.suspects (numBatches req.suspects) 0 [] with
      | mk res blog =>
          cases res with
          | ok players0 =>
              exfalso
              rw [hrb] at herr
              simp at herr
          | error e =>
              have hblog := runBatches_log_genBatch orc.batchResponse req.suspects
                (numBatches req.suspects) 0 []
              rw [hrb] at hblog
              simp only [Prod.snd] at hblog
              constructor
              · simp [isOk200, failEnvelope]
              · intro hmem
                simp only [Prod.snd] at hmem
                by_cases hc : req.caseType = "asesinato" <;> simp [hc] at hmem <;>
                · obtain ⟨b, hb⟩ := hblog CallTag.genHidden hmem
                  simp at hb

/-- C8: a batch stage asked for exactly `k` players whose response parses
to an array of any other length fails with the count-mismatch error, and
that failure is terminal: the handler's outcome is not a 200 document (it
is the 400/500 error envelope) and the hidden-context stage is never
called - no partial acceptance, no document. -/
theorem C8_count_mismatch_terminal (req : ImpostorCaseGenerationRequest)
    (orc : PipelineOracles) (j : Nat) (parsed : Json) (ps : List Json)
    (h1 : 3 * j < req.suspects)
    (h2 : parseAndRepairJSON (orc.batchResponse (3 * j)) = .ok parsed)
    (h3 : getField parsed "players" = some (.arr ps))
    (h4 : ps.length ≠ min 3 (req.suspects - 3 * j)) :
    generatePlayersBatch (orc.batchResponse (3 * j)) (min 3 (req.suspects - 3 * j)) =
      .error ("AI generated " ++ toString ps.length ++ " players but " ++
        toString (min 3 (req.suspects - 3 * j)) ++ " were requested for this batch") ∧
    isOk200 (handleGenerateImpostorCase req orc).1 = false ∧
    CallTag.genHidden ∉ (handleGenerateImpostorCase req orc).2 := by
  have hb : generatePlayersBatch (orc.batchResponse (3 * j)) (min 3 (req.suspects - 3 * j)) =
      .error ("AI generated " ++ toString ps.length ++ " players but " ++
        toString (min 3 (req.suspects - 3 * j)) ++ " were requested for this batch") := by
    unfold generatePlayersBatch
    simp [h2, h3, h4]
  have hj : j < numBatches req.suspects := by
    unfold numBatches
    omega
  obtain ⟨e2, herr⟩ := runBatches_error_of_batch orc.batchResponse req.suspects j _ hb
    (numBatches req.suspects) 0 [] (Nat.zero_le j) (by omega)
  have herr0 : (runBatches orc.batchResponse req.suspects (numBatches req.suspects) 0 []).1 =
      .error e2 := by simpa using herr
  exact ⟨hb, handler_batches_error req orc e2 herr0⟩

/-- C8 witness: with three players requested in one batch and a response
carrying only two, the batch stage raises the count mismatch, the request
ends in an error envelope and the hidden-context stage never runs. -/
theorem C8_witness :
    generatePlayersBatch (C8orc.batchResponse (3 * 0)) (min 3 (C8req.suspects - 3 * 0)) =
      .error "AI generated 2 players but 3 were requested for this batch" ∧
    isOk200 (handleGenerateImpostorCase C8req C8orc).1 = false ∧
    CallTag.genHidden ∉ (handleGenerateImpostorCase C8req C8orc).2 :=
  C8_count_mismatch_terminal C8req C8orc 0
    (.obj [("players", .arr [.obj [("id", .str "player-1")], .obj [("id", .str "player-2")]])])
    [.obj [("id", .str "player-1")], .obj [("id", .str "player-2")]]
    (by decide) (by decide) (by decide) (by decide)

/-- C1 counterexample: a complete pipeline run whose batch stage returns
the requested count with `isKiller` false on every player finishes as a
200 document - zero players are flagged as the killer, so the document
does not have exactly one culprit flag as claimed. -/
theorem C1_counterexample :
    (handleGenerateImpostorCase C1req C1orc).1 = .ok200 C1doc ∧
    countKillers C1doc.players = 0 := by
  constructor
  · decide
  · decide

/-- C1 witness: the amended claim at the concrete C1 run - the finished
document's `killerId` is the pre-selected `player-1`. -/
theorem C1_witness :
    getField C1doc.hiddenContext "killerId" =
      some (.str ("player-" ++ toString C1orc.killerDraw)) :=
  C1_killer_id_forced C1req C1orc C1doc (by decide)

/-- C2 counterexample: a run whose batch stage returns the right count but
the identifier `player-7` finishes as a 200 document whose identifier list
is not the required `player-1 .. player-N`. -/
theorem C2_counterexample :
    (handleGenerateImpostorCase C2req C2orc).1 = .ok200 C2doc ∧
    playerIds C2doc.players = [some (.str "player-7")] ∧
    playerIds C2doc.players ≠ [some (.str "player-1")] := by
  refine ⟨by decide, by decide, by decide⟩

/-- C2 witness: the amended claim at the concrete C2 run - the finished
document carries exactly the requested number of players. -/
theorem C2_witness : C2doc.players.length = C2req.suspects :=
  C2_player_count_enforced C2req C2orc C2doc (by decide)

/-- C3 (amended): the repair path is a no-op exactly on valid JSON whose
trimmed text ends with a closing brace and contains an even number of
double-quote characters; there `parseAndRepairJSON` returns what
`JSON.parse` returns on the trimmed input.  (Valid JSON not of this shape
is rejected or mangled; see the counterexample.) -/
theorem C3_repair_noop_on_closed_json (s : String) (v : Json)
    (h1 : endsWithRBrace (jsTrim s.data) = true)
    (h2 : (jsTrim s.data).count '"' % 2 = 0)
    (h3 : jsonParse (jsTrim s.data) = .ok v) :
    parseAndRepairJSON s = .ok v := by
  unfold parseAndRepairJSON parseAndRepairJSONL repairClosing balanceQuotes
  simp [h1, h2, h3]

/-- C3 counterexample: `[1,2,3]` is valid JSON, but `parseAndRepairJSON`
throws on it (it does not end with a closing brace, contains no brace at
all, and the bracket-balance branch appends nothing); and a valid object
whose string value holds an escaped quote has an odd raw quote count and
also throws.  So repair is not a no-op on all valid input, which forces
both restrictions of the amended claim. -/
theorem C3_counterexample :
    parseJson "[1,2,3]" = .ok (.arr [.num 1, .num 2, .num 3]) ∧
    parseAndRepairJSON "[1,2,3]" =
      .error "Model returned incomplete JSON (not closed, could not repair)" ∧
    parseJson "\x7b\"a\":\"\\\"\"\x7d" = .ok (.obj [("a", .str "\"")]) ∧
    parseAndRepairJSON "\x7b\"a\":\"\\\"\"\x7d" =
      .error "Model returned malformed JSON (unbalanced quotes, could not fix)" := by
  refine ⟨by decide, by decide, by decide, by decide⟩

/-- C3 witness: the amended claim at a concrete valid object. -/
theorem C3_witness : parseAndRepairJSON "\x7b\"a\":1\x7d" = .ok (.obj [("a", .num 1)]) :=
  C3_repair_noop_on_closed_json _ _ (by decide) (by decide) (by decide)

/-- C4: on the object truncated inside a string value, with no closing
brace anywhere, `parseAndRepairJSON` does not return the repaired object -
the bracket-balance branch truncates the input to its first character
(its backward scan goes negative at the opening brace and appends no
closers) and the function throws the incomplete-JSON error. -/
theorem C4_truncated_tail_throws :
    bracketBalanceRepair "\x7b\"a\":\"b\",\"c\":\"d".data = "\x7b".data ∧
    parseAndRepairJSON "\x7b\"a\":\"b\",\"c\":\"d" =
      .error "Model returned incomplete JSON (not closed, could not repair)" := by
  constructor
  · decide
  · decide

/-- C5: on the object with an unclosed array and object,
`parseAndRepairJSON` does not append the missing `]` and `\x7d` - the
backward scan's counters go negative at the first unmatched opener, the
positive-count append condition never holds, the input is truncated to
just before that opener, and the function throws. -/
theorem C5_bracket_repair_throws :
    bracketBalanceRepair "\x7b\"a\":[1,2,3".data = "\x7b\"a\":[".data ∧
    parseAndRepairJSON "\x7b\"a\":[1,2,3" =
      .error "Model returned incomplete JSON (not closed, could not repair)" := by
  constructor
  · decide
  · decide

/-- C6: in the branch where the body discoverer is meant to be an
innocent (the 30% coin came up false), the route takes the single uniform
draw as it is - no redraw - so with killer index 2 and draw 2 the
discoverer IS the killer, contradicting the claimed redraw-until-distinct
behaviour. -/
theorem C6_discoverer_no_redraw : pickDiscoveredBy 2 false 2 = 2 := rfl

/-- C7 (amended): the reconciler's score is the sum of an occupation tier
(+5 for an exact case-insensitive match in either display locale, else +3
for a substring match in either direction against the Spanish-locale
occupation only), +2 for an exact gender match, and an age-proximity
bonus (+2 within 1 year, else +1 within 3) when both ages are known. -/
theorem C7_score_formula (gen orig : Json) :
    scoreMatch gen orig = scoreMatchAmended gen orig := by
  unfold scoreMatch scoreMatchAmended occupationTierAmended genderBonusAmended ageBonusAmended
  cases hg : genRoleOf gen with
  | nil => simp
  | cons c rest => simp [hg]

/-- C7 counterexample: an exact occupation match scores 5 in the source,
not the claimed 10; and an English-locale substring match scores 0 in the
source where the claimed rule gives 3. -/
theorem C7_counterexample :
    scoreMatch (.obj [("role", .str "Chef")])
        (.obj [("occupation", .obj [("es", .str "chef"), ("en", .str "chef")])]) = 5 ∧
    scoreMatchClaimed (.obj [("role", .str "Chef")])
        (.obj [("occupation", .obj [("es", .str "chef"), ("en", .str "chef")])]) = 10 ∧
    scoreMatch (.obj [("role", .str "che")])
        (.obj [("occupation", .obj [("es", .str "cocinero"), ("en", .str "chef")])]) = 0 ∧
    scoreMatchClaimed (.obj [("role", .str "che")])
        (.obj [("occupation", .obj [("es", .str "cocinero"), ("en", .str "chef")])]) = 3 := by
  refine ⟨by decide, by decide, by decide, by decide⟩

/-- C9: the reconciler is deterministic - two runs of the photo-matching
step on equal player lists and equal catalog lists (same order) produce
the identical assignment; the matching is a pure function of those two
lists, with no randomness. -/
theorem C9_reconciler_deterministic (players1 suspects1 players2 suspects2 : List Json)
    (hp : players1 = players2) (hs : suspects1 = suspects2) :
    reconcilePhotos players1 suspects1 = reconcilePhotos players2 suspects2 := by
  rw [hp, hs]

/-- C9 witness: two runs on a concrete player and catalog record. -/
theorem C9_witness :
    reconcilePhotos
        [Json.obj [("role", .str "Chef"), ("gender", .str "male"), ("age", .num 40)]]
        [Json.obj [("id", .str "s1"), ("occupation", .obj [("es", .str "chef")]),
          ("gender", .str "male"), ("approx_age", .num 41), ("image_url", .str "u1")]] =
      reconcilePhotos
        [Json.obj [("role", .str "Chef"), ("gender", .str "male"), ("age", .num 40)]]
        [Json.obj [("id", .str "s1"), ("occupation", .obj [("es", .str "chef")]),
          ("gender", .str "male"), ("approx_age", .num 41), ("image_url", .str "u1")]] :=
  C9_reconciler_deterministic _ _ _ _ rfl rfl

/-- C10: a request whose body carries both `scenario` and `customScenario`
(both truthy), or neither, is rejected with status 400 before any
external call - the consultation log is empty, so no catalog query, no
generation call, and no case document. -/
theorem C10_scenario_validation (req : ImpostorCaseGenerationRequest) (orc : PipelineOracles)
    (h : (scenarioTruthy req = true ∧ req.customScenario.isSome = true) ∨
      (scenarioTruthy req = false ∧ req.customScenario = none)) :
    is400 (handleGenerateImpostorCase req orc).1 = true ∧
      (handleGenerateImpostorCase req orc).2 = [] := by
  unfold handleGenerateImpostorCase
  rcases h with ⟨h1, h2⟩ | ⟨h1, h2⟩
  · split
    · exact ⟨rfl, rfl⟩
    split
    · exact ⟨rfl, rfl⟩
    · rename_i hno
      exact absurd ⟨h1, h2⟩ hno
  · split
    · exact ⟨rfl, rfl⟩
    split
    · exact ⟨rfl, rfl⟩
    split
    · exact ⟨rfl, rfl⟩
    · rename_i hno
      exfalso
      apply hno
      constructor <;> simp [h1, h2]

/-- C10 witness: a concrete request carrying both scenario fields is
rejected with 400 and an empty consultation log. -/
theorem C10_witness :
    is400 (handleGenerateImpostorCase C10req C10orc).1 = true ∧
      (handleGenerateImpostorCase C10req C10orc).2 = [] :=
  C10_scenario_validation C10req C10orc (Or.inl ⟨by decide, by decide⟩)
